import Mathlib

/-!
# NTRIP server connection lifecycle (`src/src/ntrip_server.cc`)

A shallow embedding of `libntrip::NtripServer`: the handshake formatting and
bounded wait of `Run`, the teardown of `Stop` and of the destructor, and the
monitor loop `TheradHandler`.

Modelling conventions.

* A C `char` is a Lean `Char`; a buffer or a `std::string` is a `List Char`;
  `NUL` is the terminating zero byte.
* Every system call the code makes is recorded, in program order, as an
  `Event`; the results of the calls whose results the code inspects are
  supplied by the caller of the model (`SysEnv`, `RecvResult`).
* `Base64Encode` (declared in `ntrip/ntrip_util.h`) and the constant
  `kServerAgent` (declared in `ntrip/ntrip_server.h`) are not part of the
  translated file; they are parameters of `Run`.
* `Base64Encode` stores its text in `char userinfo[64]`. A text of at most 63
  bytes fits with its terminator. A longer one is written past the end of the
  array; what `%s` then reads at `userinfo` depends on the memory around the
  array and is supplied by the environment (`SysEnv.userinfo_overrun`).
* The model is sequential: `Run` records the start of the detached thread as
  an event and does not interleave the thread with the caller.
-/

namespace libntrip

/-- The zero byte that terminates a C string. -/
def NUL : Char := Char.ofNat 0

/-- Error numbers of `<errno.h>` (Linux values) that `TheradHandler` treats as
transient. -/
def EAGAIN : Int := 11

/-- On Linux `EWOULDBLOCK` is the same number as `EAGAIN`. -/
def EWOULDBLOCK : Int := 11

/-- Interrupted system call. -/
def EINTR : Int := 4

/-- The C string stored in a buffer: the bytes before the first `NUL`. This is
what `strlen`, `c_str()` followed by `%s`, and `%s` on a `char[]` read. -/
def c_str (buf : List Char) : List Char :=
  buf.takeWhile (fun c => c != NUL)

/-- Contents of a zero-initialised `char[size]` after
`snprintf(buf, size, ...)` whose complete output would be `formatted`: at most
`size - 1` bytes of output are stored, the rest of the array is `NUL`. -/
def snprintf (size : Nat) (formatted : List Char) : List Char :=
  formatted.take (size - 1) ++
    List.replicate (size - (formatted.take (size - 1)).length) NUL

/-- The conversion `%d` of an `int`. -/
def fmt_d (n : Int) : List Char :=
  if n < 0 then '-' :: Nat.toDigits 10 n.natAbs else Nat.toDigits 10 n.natAbs

/-- Element `i` of a C array, reading `NUL` beyond the modelled part. -/
def byteAt (buf : List Char) (i : Nat) : Char :=
  buf.getD i NUL

/-- Whether `strncmp(a, b, n) == 0`: the first `n` bytes agree, or the
strings agree up to and including a common terminating `NUL` before that. -/
def strncmp_eq (a b : List Char) : Nat → Bool
  | 0 => true
  | n + 1 =>
    if byteAt a 0 != byteAt b 0 then false
    else if byteAt a 0 == NUL then true
    else strncmp_eq (a.drop 1) (b.drop 1) n

/-- The acceptance line of the caster, the literal passed to `strncmp`. -/
def kAcceptLine : List Char := "ICY 200 OK\r\n".toList

/-- What one call of `recv` on the non-blocking socket did. -/
inductive RecvResult where
  /-- The call stored `data` (as much of it as fits the buffer) and returned
  the number of bytes stored; empty `data` is the return value 0. -/
  | bytes (data : List Char)
  /-- The call returned -1 and set `errno`. -/
  | error (errno : Int)
  deriving DecidableEq

/-- Return value of `recv(fd, buf, size, 0)`. -/
def RecvResult.ret (size : Nat) : RecvResult → Int
  | .bytes data => ((data.take size).length : Nat)
  | .error _ => -1

/-- Contents of a `char[size]` that was zeroed and then passed to `recv`. -/
def RecvResult.buffer (size : Nat) : RecvResult → List Char
  | .bytes data =>
    data.take size ++ List.replicate (size - (data.take size).length) NUL
  | .error _ => List.replicate size NUL

/-- Value of `errno` after the call (consulted only when the call failed). -/
def RecvResult.errno_after : RecvResult → Int
  | .bytes _ => 0
  | .error e => e

/-- Socket options set by `Run`. -/
inductive SockOpt where
  | SO_KEEPALIVE
  | TCP_KEEPIDLE
  | TCP_KEEPINTVL
  | TCP_KEEPCNT
  deriving DecidableEq

/-- System and library calls made by the translated functions. -/
inductive Event where
  | printf (msg : String)
  | socket
  | connect (fd : Int) (ip : List Char) (port : Int)
  | set_nonblocking (fd : Int)
  | send (fd : Int) (payload : List Char)
  | recv (fd : Int)
  | sleep (seconds : Nat)
  | sleep_for_ms (milliseconds : Nat)
  | setsockopt (fd : Int) (opt : SockOpt) (value : Int)
  | thread_start
  | close (fd : Int)
  deriving DecidableEq

/-- Whether the event is a `recv`. -/
def Event.isRecv : Event → Bool
  | .recv _ => true
  | _ => false

/-- Whether the event is a `close`. -/
def Event.isClose : Event → Bool
  | .close _ => true
  | _ => false

/-- The payloads of the `send` calls of a trace, in order. -/
def sentPayloads : List Event → List (List Char)
  | [] => []
  | .send _ payload :: rest => payload :: sentPayloads rest
  | _ :: rest => sentPayloads rest

/-- The data members of `NtripServer` that the translated functions use. -/
structure NtripServer where
  thread_is_running_ : Bool
  service_is_running_ : Bool
  socket_fd_ : Int
  data_list_ : List (List Char)
  server_ip_ : List Char
  server_port_ : Int
  user_ : List Char
  passwd_ : List Char
  mountpoint_ : List Char
  ntrip_str_ : List Char
  deriving DecidableEq

/-- Results of the system calls of `Run` whose results the code inspects. -/
structure SysEnv where
  /-- Return value of `socket`. -/
  socket_ret : Int
  /-- Return value of `connect`. -/
  connect_ret : Int
  /-- Return value of the handshake `send`. -/
  send_ret : Int
  /-- Result of the `i`-th handshake `recv`, counted from 0. -/
  recv_script : Nat → RecvResult
  /-- The bytes found at `userinfo` by `%s` in case `Base64Encode` has written
  past the end of the array. -/
  userinfo_overrun : List Char

/-- A script given as a finite list; once it is used up the non-blocking
socket has nothing to deliver (`recv` fails with `EAGAIN`). -/
def scriptOf (l : List RecvResult) : Nat → RecvResult :=
  fun i => l.getD i (.error EAGAIN)

/-- The text left in `userinfo_raw` by lines 61-65 of `Run`, as read by
`Base64Encode`. -/
def userinfo_raw (user passwd : List Char) : List Char :=
  c_str (snprintf 48 (c_str user ++ ":".toList ++ c_str passwd))

/-- The bytes at `userinfo` when line 78 of `Run` reads them, `encoded` being
the text that `Base64Encode` stored at line 66: the zero-initialised `char[64]`
holding the text when the text and its terminator fit, and bytes that depend
on the surrounding memory (`overrun`) when the call wrote past the array. -/
def userinfo_buffer (encoded overrun : List Char) : List Char :=
  if encoded.length < 64 then
    encoded ++ List.replicate (64 - encoded.length) NUL
  else overrun

/-- The complete output of the format of lines 69-78 of `Run`. -/
def request_format (mountpoint server_ip : List Char) (server_port : Int)
    (agent userinfo ntrip_str : List Char) : List Char :=
  "POST /".toList ++ c_str mountpoint ++ " HTTP/1.1\r\n".toList ++
  "Host: ".toList ++ c_str server_ip ++ ":".toList ++ fmt_d server_port ++
    "\r\n".toList ++
  "Ntrip-Version: Ntrip/2.0\r\n".toList ++
  "User-Agent: ".toList ++ c_str agent ++ "\r\n".toList ++
  "Authorization: Basic ".toList ++ c_str userinfo ++ "\r\n".toList ++
  "Ntrip-STR: ".toList ++ c_str ntrip_str ++ "\r\n".toList ++
  "Connection: close\r\n".toList ++
  "Transfer-Encoding: chunked\r\n".toList

/-- How the loop of lines 112-124 of `Run` was left. -/
inductive WaitExit where
  /-- By `break` or by a false loop condition; `timeout` is its value then. -/
  | left_loop (timeout : Int)
  /-- By the `return false` of line 121. -/
  | returned_false
  deriving DecidableEq

/-- The loop `while (timeout--)` of `Run`, lines 112-124. The first argument
is the value of `timeout` when the condition is evaluated, `i` the number of
`recv` calls made so far. -/
def Run_wait (recv_script : Nat → RecvResult) (socket_fd : Int) :
    Nat → Nat → WaitExit × List Event
  | 0, _ => (.left_loop (-1), [])
  | timeout + 1, i =>
    let r := recv_script i
    let ret := r.ret 1024
    let request_buffer := r.buffer 1024
    if decide (ret > 0) && strncmp_eq request_buffer kAcceptLine 12 then
      (.left_loop timeout, [.recv socket_fd])
    else if ret == 0 then
      (.returned_false,
        [.recv socket_fd, .printf "Remote socket close!!!\n", .close socket_fd])
    else
      let rest := Run_wait recv_script socket_fd timeout (i + 1)
      (rest.1, .recv socket_fd :: .sleep 1 :: rest.2)

/-- The function `NtripServer::Run`: the returned flag, the object
afterwards and the calls made. -/
def NtripServer.Run (Base64Encode : List Char → List Char)
    (kServerAgent : List Char) (env : SysEnv) (s : NtripServer) :
    Bool × NtripServer × List Event :=
  let userinfo := userinfo_buffer (Base64Encode (userinfo_raw s.user_ s.passwd_))
    env.userinfo_overrun
  let request_buffer := snprintf 1024
    (request_format s.mountpoint_ s.server_ip_ s.server_port_ kServerAgent
      userinfo s.ntrip_str_)
  let socket_fd := env.socket_ret
  if socket_fd == -1 then
    (false, s, [.socket, .printf "Create socket fail\n"])
  else if env.connect_ret < 0 then
    (false, s, [.socket, .connect socket_fd s.server_ip_ s.server_port_,
      .printf "Connect remote server failed!!!\n", .close socket_fd])
  else if env.send_ret < 0 then
    (false, s, [.socket, .connect socket_fd s.server_ip_ s.server_port_,
      .set_nonblocking socket_fd, .send socket_fd (c_str request_buffer),
      .printf "Send authentication request failed!!!\n", .close socket_fd])
  else
    let start : List Event :=
      [.socket, .connect socket_fd s.server_ip_ s.server_port_,
       .set_nonblocking socket_fd, .send socket_fd (c_str request_buffer)]
    match Run_wait env.recv_script socket_fd 3 0 with
    | (.returned_false, tr) => (false, s, start ++ tr)
    | (.left_loop timeout, tr) =>
      if timeout ≤ 0 then
        (false, s, start ++ tr)
      else
        (true,
         { s with socket_fd_ := socket_fd, service_is_running_ := true },
         start ++ tr ++
           [.setsockopt socket_fd .SO_KEEPALIVE 1,
            .setsockopt socket_fd .TCP_KEEPIDLE 30,
            .setsockopt socket_fd .TCP_KEEPINTVL 5,
            .setsockopt socket_fd .TCP_KEEPCNT 3,
            .thread_start,
            .printf "NtripServer starting ...\n"])

/-- The function `NtripServer::Stop`. -/
def NtripServer.Stop (s : NtripServer) : NtripServer × List Event :=
  let s1 := { s with thread_is_running_ := false, service_is_running_ := false }
  let r2 : NtripServer × List Event :=
    if s1.socket_fd_ != -1 then
      ({ s1 with socket_fd_ := -1 }, [.close s1.socket_fd_])
    else (s1, [])
  if !r2.1.data_list_.isEmpty then
    ({ r2.1 with data_list_ := [] }, r2.2)
  else r2

/-- The destructor `NtripServer::~NtripServer`. -/
def NtripServer.Destructor (s : NtripServer) : NtripServer × List Event :=
  if s.thread_is_running_ then s.Stop else (s, [])

/-- The loop `while (thread_is_running_)` of `TheradHandler`, lines 168-180;
`i` is the number of `recv` calls made so far. The result is `none` when
`fuel` iterations did not leave the loop. -/
def TheradHandler_loop (recv_script : Nat → RecvResult) (s : NtripServer) :
    Nat → Nat → Option (List Event)
  | 0, _ => none
  | fuel + 1, i =>
    if s.thread_is_running_ then
      let r := recv_script i
      let ret := r.ret 1024
      if ret == 0 then
        some [.recv s.socket_fd_, .printf "Remote socket close!!!\n"]
      else if decide (ret < 0) && (r.errno_after != EAGAIN &&
          r.errno_after != EWOULDBLOCK && r.errno_after != EINTR) then
        some [.recv s.socket_fd_, .printf "Remote socket error!!!\n"]
      else
        (TheradHandler_loop recv_script s fuel (i + 1)).map
          (fun rest => .recv s.socket_fd_ :: .sleep_for_ms 10 :: rest)
    else some []

/-- The function `NtripServer::TheradHandler`, run on its own: the object
afterwards and the calls made, or `none` when the loop is still running after
`fuel` iterations. -/
def NtripServer.TheradHandler (recv_script : Nat → RecvResult) (fuel : Nat)
    (s : NtripServer) : Option (NtripServer × List Event) :=
  let s1 := { s with thread_is_running_ := true }
  (TheradHandler_loop recv_script s1 fuel 0).map (fun tr =>
    ({ s1 with socket_fd_ := -1, thread_is_running_ := false,
               service_is_running_ := false },
     tr ++ [.close s1.socket_fd_]))

/-! ## Vocabulary of the specification and example inputs -/

/-- The read returned data that begins with the 12 bytes of the acceptance
line. -/
def RecvResult.accepted : RecvResult → Bool
  | .bytes data => kAcceptLine.isPrefixOf data
  | .error _ => false

/-- The read returned zero bytes. -/
def RecvResult.isZeroRead : RecvResult → Bool
  | .bytes [] => true
  | _ => false

/-- The read returned a positive number of bytes. -/
def RecvResult.isPositive : RecvResult → Bool
  | .bytes (_ :: _) => true
  | _ => false

/-- The read returned a negative result. -/
def RecvResult.isNegative : RecvResult → Bool
  | .error _ => true
  | _ => false

/-- The read failed with an error number other than `EAGAIN`, `EWOULDBLOCK`
and `EINTR`. -/
def RecvResult.isFatalError : RecvResult → Bool
  | .bytes _ => false
  | .error e => e != EAGAIN && e != EWOULDBLOCK && e != EINTR

/-- The read is one at which the monitor loop is to stop: a zero-byte read
or a failure that is not transient. -/
def RecvResult.isFatal (r : RecvResult) : Bool :=
  r.isZeroRead || r.isFatalError

/-- Line terminator of the request. -/
def CRLF : List Char := "\r\n".toList

/-- The eight lines of the request as the specification lists them, without
their terminators. -/
def spec_handshake_lines (mountpoint host : List Char) (port : Int)
    (agent credential str : List Char) : List (List Char) :=
  [ "POST /".toList ++ mountpoint ++ " HTTP/1.1".toList,
    "Host: ".toList ++ host ++ ":".toList ++ fmt_d port,
    "Ntrip-Version: Ntrip/2.0".toList,
    "User-Agent: ".toList ++ agent,
    "Authorization: Basic ".toList ++ credential,
    "Ntrip-STR: ".toList ++ str,
    "Connection: close".toList,
    "Transfer-Encoding: chunked".toList ]

/-- The request of the specification: each line followed by CRLF, and nothing
after the last line. -/
def spec_handshake (mountpoint host : List Char) (port : Int)
    (agent credential str : List Char) : List Char :=
  ((spec_handshake_lines mountpoint host port agent credential str).map
    (fun line => line ++ CRLF)).flatten

/-- A configured object on which `Run` has not been called. -/
def exampleServer : NtripServer :=
  { thread_is_running_ := false, service_is_running_ := false,
    socket_fd_ := -1, data_list_ := [],
    server_ip_ := "127.0.0.1".toList, server_port_ := 2101,
    user_ := "user".toList, passwd_ := "pass".toList,
    mountpoint_ := "MNT".toList, ntrip_str_ := "STR;MNT;RTCM 3.2".toList }

/-- An encoder used in the examples; it returns the base64 text of
"user:pass". -/
def exampleEncode : List Char → List Char :=
  fun _ => "dXNlcjpwYXNz".toList

/-- A user agent used in the examples. -/
def exampleAgent : List Char := "NTRIP NtripServerCXX/1.0".toList

/-- An environment in which `socket` returns descriptor 5, `connect` and
`send` succeed, and the handshake reads follow the list; nothing is found
past the end of `userinfo`. -/
def exampleEnv (reads : List RecvResult) : SysEnv :=
  { socket_ret := 5, connect_ret := 0, send_ret := 200,
    recv_script := scriptOf reads, userinfo_overrun := [] }

/-- The alphabet of base64 (RFC 4648). -/
def base64Alphabet : List Char :=
  "ABCDEFGHIJKLMNOPQRSTUVWXYZabcdefghijklmnopqrstuvwxyz0123456789+/".toList

/-- The base64 character of a 6-bit value. -/
def base64Digit (n : Nat) : Char :=
  base64Alphabet.getD n '='

/-- Base64 with padding (RFC 4648), the encoder of the long-credential
example. -/
def exampleBase64 : List Char → List Char
  | a :: b :: c :: rest =>
    base64Digit (a.toNat / 4) ::
    base64Digit (a.toNat % 4 * 16 + b.toNat / 16) ::
    base64Digit (b.toNat % 16 * 4 + c.toNat / 64) ::
    base64Digit (c.toNat % 64) :: exampleBase64 rest
  | [a, b] =>
    [base64Digit (a.toNat / 4), base64Digit (a.toNat % 4 * 16 + b.toNat / 16),
     base64Digit (b.toNat % 16 * 4), '=']
  | [a] =>
    [base64Digit (a.toNat / 4), base64Digit (a.toNat % 4 * 16), '=', '=']
  | [] => []

/-- The object of `exampleServer` with a user name and a password of 23 bytes
each. -/
def exampleLongServer : NtripServer :=
  { exampleServer with
    user_ := "aaaaaaaaaaaaaaaaaaaaaaa".toList,
    passwd_ := "bbbbbbbbbbbbbbbbbbbbbbb".toList }

/-- The object left by a successful `Run` on `exampleServer`, before the
detached thread has executed anything. -/
def exampleStarted : NtripServer :=
  (NtripServer.Run exampleEncode exampleAgent (exampleEnv [.bytes kAcceptLine])
    exampleServer).2.1

/-- A connected object with three buffers in its queue. -/
def exampleQueued : NtripServer :=
  { exampleServer with
    socket_fd_ := 5, service_is_running_ := true,
    data_list_ := ["A".toList, "B".toList, "C".toList] }



/-- The object of `exampleStarted` once the detached thread has set
`thread_is_running_`. -/
def exampleMonitored : NtripServer :=
  { exampleStarted with thread_is_running_ := true }

set_option maxRecDepth 8000

/-! ## Lemmas on the C string primitives -/

theorem c_str_eq_self {l : List Char} (h : ∀ c ∈ l, c ≠ NUL) : c_str l = l := by
  unfold c_str
  rw [List.takeWhile_eq_self_iff]
  intro c hc
  simpa using h c hc

theorem c_str_append_nuls {l : List Char} (h : ∀ c ∈ l, c ≠ NUL) (k : Nat) :
    c_str (l ++ List.replicate k NUL) = l := by
  induction l with
  | nil =>
    cases k with
    | zero => rfl
    | succ k => simp [c_str, List.replicate_succ]
  | cons x l ih =>
    have hx : x ≠ NUL := h x (List.mem_cons_self _ _)
    have hl : ∀ c ∈ l, c ≠ NUL := fun c hc => h c (List.mem_cons_of_mem _ hc)
    have := ih hl
    simp only [c_str] at this ⊢
    simp [List.takeWhile_cons, hx, this]

theorem c_str_snprintf {f : List Char} (h : ∀ c ∈ f, c ≠ NUL) (size : Nat) :
    c_str (snprintf size f) = f.take (size - 1) := by
  unfold snprintf
  exact c_str_append_nuls (fun c hc => h c (List.mem_of_mem_take hc)) _

theorem digitChar_ne_NUL : ∀ n < 10, Nat.digitChar n ≠ NUL := by decide

theorem toDigitsCore_no_NUL : ∀ (fuel n : Nat) (acc : List Char),
    (∀ c ∈ acc, c ≠ NUL) → ∀ c ∈ Nat.toDigitsCore 10 fuel n acc, c ≠ NUL := by
  intro fuel
  induction fuel with
  | zero => intro n acc h; simpa [Nat.toDigitsCore] using h
  | succ fuel ih =>
    intro n acc h
    have hacc : ∀ c ∈ Nat.digitChar (n % 10) :: acc, c ≠ NUL := by
      intro c hc
      rcases List.mem_cons.mp hc with rfl | hc
      · exact digitChar_ne_NUL _ (Nat.mod_lt _ (by decide))
      · exact h c hc
    unfold Nat.toDigitsCore
    by_cases h0 : n / 10 = 0
    · simpa [h0] using hacc
    · simpa [h0] using ih (n / 10) _ hacc

theorem fmt_d_no_NUL (n : Int) : ∀ c ∈ fmt_d n, c ≠ NUL := by
  have hd : ∀ m : Nat, ∀ c ∈ Nat.toDigits 10 m, c ≠ NUL := fun m =>
    toDigitsCore_no_NUL _ _ [] (by simp)
  unfold fmt_d
  split_ifs
  · intro c hc
    rcases List.mem_cons.mp hc with rfl | hc
    · decide
    · exact hd _ c hc
  · exact hd _

theorem strncmp_eq_iff (l : List Char) (hl : ∀ c ∈ l, c ≠ NUL) :
    ∀ b : List Char, strncmp_eq b l l.length = true ↔ l <+: b := by
  induction l with
  | nil => intro b; simp [strncmp_eq]
  | cons x l ih =>
    intro b
    have hx : x ≠ NUL := hl x (List.mem_cons_self _ _)
    have ih := ih (fun c hc => hl c (List.mem_cons_of_mem _ hc))
    cases b with
    | nil => simp [strncmp_eq, byteAt, Ne.symm hx]
    | cons y b =>
      by_cases hyx : y = x
      · subst hyx
        simp [strncmp_eq, byteAt, hx, ih, List.cons_prefix_cons]
      · simp [strncmp_eq, byteAt, hyx, List.cons_prefix_cons, Ne.symm hyx]

theorem prefix_take_append_nuls (l : List Char) (hl : ∀ c ∈ l, c ≠ NUL) :
    ∀ (d : List Char) (m k : Nat), l.length ≤ m →
      (l <+: d.take m ++ List.replicate k NUL ↔ l <+: d) := by
  induction l with
  | nil => intro d m k _; simp
  | cons x l ih =>
    intro d m k hm
    have hx : x ≠ NUL := hl x (List.mem_cons_self _ _)
    have ih := ih (fun c hc => hl c (List.mem_cons_of_mem _ hc))
    obtain ⟨m, rfl⟩ : ∃ m', m = m' + 1 := ⟨m - 1, by simp at hm; omega⟩
    cases d with
    | nil =>
      cases k with
      | zero => simp
      | succ k => simp [List.replicate_succ, List.cons_prefix_cons, hx]
    | cons y d =>
      simp only [List.take_succ_cons, List.cons_append, List.cons_prefix_cons]
      rw [ih d m k (by simpa using hm)]

theorem kAcceptLine_no_NUL : ∀ c ∈ kAcceptLine, c ≠ NUL := by decide

theorem kAcceptLine_length : kAcceptLine.length = 12 := by decide

theorem accept_cond_eq (r : RecvResult) :
    (decide (r.ret 1024 > 0) && strncmp_eq (r.buffer 1024) kAcceptLine 12) = r.accepted := by
  cases r with
  | error e => simp [RecvResult.ret, RecvResult.accepted]
  | bytes data =>
    rw [Bool.eq_iff_iff]
    have h1 := strncmp_eq_iff kAcceptLine kAcceptLine_no_NUL
      (RecvResult.buffer 1024 (.bytes data))
    rw [kAcceptLine_length] at h1
    have h2 := prefix_take_append_nuls kAcceptLine kAcceptLine_no_NUL data 1024
      (1024 - (data.take 1024).length) (by rw [kAcceptLine_length]; omega)
    simp only [RecvResult.accepted, RecvResult.ret, Bool.and_eq_true, decide_eq_true_eq,
      List.isPrefixOf_iff_prefix]
    rw [h1]
    simp only [RecvResult.buffer]
    rw [h2]
    constructor
    · exact fun h => h.2
    · intro h
      refine ⟨?_, h⟩
      have hlen := h.length_le
      rw [kAcceptLine_length] at hlen
      have : 0 < (data.take 1024).length := by
        rw [List.length_take]
        omega
      exact_mod_cast this

theorem zero_cond_eq (r : RecvResult) : (r.ret 1024 == 0) = r.isZeroRead := by
  cases r with
  | error e => simp [RecvResult.ret, RecvResult.isZeroRead]
  | bytes data =>
    cases data with
    | nil => simp [RecvResult.ret, RecvResult.isZeroRead]
    | cons c d => 
      simp [RecvResult.ret, RecvResult.isZeroRead]
      omega

theorem Run_wait_zero (rs : Nat → RecvResult) (fd : Int) (i : Nat) :
    Run_wait rs fd 0 i = (.left_loop (-1), []) := rfl

theorem Run_wait_succ (rs : Nat → RecvResult) (fd : Int) (t i : Nat) :
    Run_wait rs fd (t + 1) i =
      if (rs i).accepted then (.left_loop t, [.recv fd])
      else if (rs i).isZeroRead then
        (.returned_false, [.recv fd, .printf "Remote socket close!!!\n", .close fd])
      else ((Run_wait rs fd t (i + 1)).1,
        .recv fd :: .sleep 1 :: (Run_wait rs fd t (i + 1)).2) := by
  simp only [Run_wait, accept_cond_eq, zero_cond_eq]

/-! ## The handshake request -/

theorem sentPayloads_append (a b : List Event) :
    sentPayloads (a ++ b) = sentPayloads a ++ sentPayloads b := by
  induction a with
  | nil => rfl
  | cons e a ih => cases e <;> simp [sentPayloads, ih]

theorem Run_wait_no_send (rs : Nat → RecvResult) (fd : Int) :
    ∀ t i, sentPayloads (Run_wait rs fd t i).2 = [] := by
  intro t
  induction t with
  | zero => intro i; rfl
  | succ t ih =>
    intro i
    rw [Run_wait_succ]
    split_ifs <;> simp [sentPayloads, ih]

theorem Run_sent (b64 : List Char → List Char) (agent : List Char) (env : SysEnv)
    (s : NtripServer) (hsock : env.socket_ret ≠ -1) (hconn : 0 ≤ env.connect_ret) :
    sentPayloads (NtripServer.Run b64 agent env s).2.2 =
      [c_str (snprintf 1024 (request_format s.mountpoint_ s.server_ip_ s.server_port_
        agent (userinfo_buffer (b64 (userinfo_raw s.user_ s.passwd_))
          env.userinfo_overrun) s.ntrip_str_))] := by
  have hw := Run_wait_no_send env.recv_script env.socket_ret 3 0
  unfold NtripServer.Run
  simp only [beq_iff_eq, hsock, not_lt.mpr hconn, if_false]
  by_cases hsend : env.send_ret < 0
  · simp [hsend, sentPayloads]
  · simp only [hsend, if_false]
    rcases hrw : Run_wait env.recv_script env.socket_ret 3 0 with ⟨ex, tr⟩
    rw [hrw] at hw
    cases ex with
    | returned_false => simp [sentPayloads_append, sentPayloads, hw]
    | left_loop t =>
      simp only
      split_ifs <;> simp [sentPayloads_append, sentPayloads, hw]

theorem c_str_userinfo_buffer {encoded : List Char} (hc : ∀ c ∈ encoded, c ≠ NUL)
    (hfit : encoded.length < 64) (overrun : List Char) :
    c_str (userinfo_buffer encoded overrun) = c_str encoded := by
  unfold userinfo_buffer
  rw [if_pos hfit, c_str_append_nuls hc, c_str_eq_self hc]

theorem userinfo_buffer_overrun {encoded : List Char} (h : 64 ≤ encoded.length)
    (overrun : List Char) : userinfo_buffer encoded overrun = overrun := by
  unfold userinfo_buffer
  rw [if_neg (by omega)]

theorem request_format_congr (mountpoint host : List Char) (port : Int)
    (agent credential credential2 str : List Char)
    (h : c_str credential = c_str credential2) :
    request_format mountpoint host port agent credential str =
      request_format mountpoint host port agent credential2 str := by
  unfold request_format
  rw [h]

theorem request_format_eq_spec (mountpoint host : List Char) (port : Int)
    (agent credential str : List Char)
    (hm : ∀ c ∈ mountpoint, c ≠ NUL) (hh : ∀ c ∈ host, c ≠ NUL)
    (ha : ∀ c ∈ agent, c ≠ NUL) (hc : ∀ c ∈ credential, c ≠ NUL)
    (hs : ∀ c ∈ str, c ≠ NUL) :
    request_format mountpoint host port agent credential str =
      spec_handshake mountpoint host port agent credential str := by
  have e1 : " HTTP/1.1\r\n".toList = " HTTP/1.1".toList ++ CRLF := by decide
  have e2 : "Ntrip-Version: Ntrip/2.0\r\n".toList =
      "Ntrip-Version: Ntrip/2.0".toList ++ CRLF := by decide
  have e3 : "Connection: close\r\n".toList = "Connection: close".toList ++ CRLF := by
    decide
  have e4 : "Transfer-Encoding: chunked\r\n".toList =
      "Transfer-Encoding: chunked".toList ++ CRLF := by decide
  have e5 : "\r\n".toList = CRLF := rfl
  unfold request_format spec_handshake spec_handshake_lines
  rw [c_str_eq_self hm, c_str_eq_self hh, c_str_eq_self ha, c_str_eq_self hc,
    c_str_eq_self hs, e1, e2, e3, e4, e5]
  simp only [List.map_cons, List.map_nil, List.flatten_cons, List.flatten_nil,
    List.append_assoc, List.append_nil]

theorem spec_handshake_no_NUL (mountpoint host : List Char) (port : Int)
    (agent credential str : List Char)
    (hm : ∀ c ∈ mountpoint, c ≠ NUL) (hh : ∀ c ∈ host, c ≠ NUL)
    (ha : ∀ c ∈ agent, c ≠ NUL) (hc : ∀ c ∈ credential, c ≠ NUL)
    (hs : ∀ c ∈ str, c ≠ NUL) :
    ∀ c ∈ spec_handshake mountpoint host port agent credential str, c ≠ NUL := by
  have l1 : ∀ c ∈ "POST /".toList, c ≠ NUL := by decide
  have l2 : ∀ c ∈ " HTTP/1.1".toList, c ≠ NUL := by decide
  have l3 : ∀ c ∈ "Host: ".toList, c ≠ NUL := by decide
  have l4 : ∀ c ∈ ":".toList, c ≠ NUL := by decide
  have l5 : ∀ c ∈ "Ntrip-Version: Ntrip/2.0".toList, c ≠ NUL := by decide
  have l6 : ∀ c ∈ "User-Agent: ".toList, c ≠ NUL := by decide
  have l7 : ∀ c ∈ "Authorization: Basic ".toList, c ≠ NUL := by decide
  have l8 : ∀ c ∈ "Ntrip-STR: ".toList, c ≠ NUL := by decide
  have l9 : ∀ c ∈ "Connection: close".toList, c ≠ NUL := by decide
  have l10 : ∀ c ∈ "Transfer-Encoding: chunked".toList, c ≠ NUL := by decide
  have l11 : ∀ c ∈ CRLF, c ≠ NUL := by decide
  have l12 := fmt_d_no_NUL port
  intro c hc
  simp only [spec_handshake, spec_handshake_lines, List.map_cons, List.map_nil,
    List.flatten_cons, List.flatten_nil, List.mem_append, List.not_mem_nil, or_false] at hc
  rcases hc with ((((h | h) | h) | h) | ((((h | h) | h) | h) | h) | (h | h) | ((h | h) | h) |
    ((h | h) | h) | ((h | h) | h) | (h | h) | (h | h))
  all_goals first
    | exact l1 c h | exact l2 c h | exact l3 c h | exact l4 c h | exact l5 c h
    | exact l6 c h | exact l7 c h | exact l8 c h | exact l9 c h | exact l10 c h
    | exact l11 c h | exact l12 c h | exact hm c h | exact hh c h | exact ha c h
    | exact hc c h | exact hs c h

/-! ## The bounded wait of `Run` -/

theorem Run_wait_three (rs : Nat → RecvResult) (fd : Int) :
    Run_wait rs fd 3 0 =
      if (rs 0).accepted then (.left_loop 2, [.recv fd])
      else if (rs 0).isZeroRead then
        (.returned_false, [.recv fd, .printf "Remote socket close!!!\n", .close fd])
      else if (rs 1).accepted then
        (.left_loop 1, [.recv fd, .sleep 1, .recv fd])
      else if (rs 1).isZeroRead then
        (.returned_false, [.recv fd, .sleep 1,
          .recv fd, .printf "Remote socket close!!!\n", .close fd])
      else if (rs 2).accepted then
        (.left_loop 0, [.recv fd, .sleep 1, .recv fd, .sleep 1, .recv fd])
      else if (rs 2).isZeroRead then
        (.returned_false, [.recv fd, .sleep 1, .recv fd, .sleep 1,
          .recv fd, .printf "Remote socket close!!!\n", .close fd])
      else
        (.left_loop (-1), [.recv fd, .sleep 1, .recv fd, .sleep 1, .recv fd, .sleep 1]) := by
  have h3 : Run_wait rs fd 3 0 = Run_wait rs fd (2 + 1) 0 := rfl
  have h2 : Run_wait rs fd 2 1 = Run_wait rs fd (1 + 1) (0 + 1) := rfl
  have h1 : Run_wait rs fd 1 2 = Run_wait rs fd (0 + 1) (1 + 1) := rfl
  have h0 : Run_wait rs fd 0 3 = (.left_loop (-1), []) := rfl
  rw [h3, Run_wait_succ]
  have e2 : Run_wait rs fd 2 (0 + 1) = Run_wait rs fd 2 1 := rfl
  rw [e2, h2, Run_wait_succ]
  have e1 : Run_wait rs fd 1 (0 + 1 + 1) = Run_wait rs fd 1 2 := rfl
  rw [e1, h1, Run_wait_succ]
  have e0 : Run_wait rs fd 0 (1 + 1 + 1) = Run_wait rs fd 0 3 := rfl
  rw [e0, h0]
  split_ifs <;> simp

theorem not_accepted_of_isNegative {r : RecvResult} (h : r.isNegative = true) :
    r.accepted = false := by
  cases r <;> simp_all [RecvResult.isNegative, RecvResult.accepted]

theorem not_isZeroRead_of_isNegative {r : RecvResult} (h : r.isNegative = true) :
    r.isZeroRead = false := by
  cases r <;> simp_all [RecvResult.isNegative, RecvResult.isZeroRead]

theorem not_isZeroRead_of_isPositive {r : RecvResult} (h : r.isPositive = true) :
    r.isZeroRead = false := by
  cases r with
  | error e => rfl
  | bytes d => cases d <;> simp_all [RecvResult.isPositive, RecvResult.isZeroRead]

theorem not_isZeroRead_of_accepted {r : RecvResult} (h : r.accepted = true) :
    r.isZeroRead = false := by
  cases r with
  | error e => rfl
  | bytes d => 
    cases d with
    | nil => exact absurd h (by decide)
    | cons c d => rfl

/-- The value `Run` returns depends on the encoder only through its value at
the text of `userinfo_raw`. -/
theorem Run_encoder_input (f g : List Char → List Char) (agent : List Char)
    (env : SysEnv) (s : NtripServer)
    (h : f (userinfo_raw s.user_ s.passwd_) = g (userinfo_raw s.user_ s.passwd_)) :
    NtripServer.Run f agent env s = NtripServer.Run g agent env s := by
  unfold NtripServer.Run
  rw [h]

/-- When `socket`, `connect` and `send` succeed and the first or the second
handshake read is accepted, no earlier read having returned zero bytes, `Run`
returns true, stores the descriptor and sets `service_is_running_`. -/
theorem Run_true_of_accept_within_two (b64 : List Char → List Char)
    (agent : List Char) (env : SysEnv) (s : NtripServer)
    (hsock : env.socket_ret ≠ -1) (hconn : 0 ≤ env.connect_ret)
    (hsend : 0 ≤ env.send_ret)
    (h : (env.recv_script 0).accepted = true ∨
      ((env.recv_script 0).isZeroRead = false ∧ (env.recv_script 1).accepted = true)) :
    (NtripServer.Run b64 agent env s).1 = true ∧
    (NtripServer.Run b64 agent env s).2.1.socket_fd_ = env.socket_ret ∧
    (NtripServer.Run b64 agent env s).2.1.service_is_running_ = true := by
  unfold NtripServer.Run
  simp only [beq_iff_eq, hsock, not_lt.mpr hconn, not_lt.mpr hsend, if_false,
    Run_wait_three]
  rcases h with h | ⟨hz, h⟩
  · simp [h]
  · by_cases h0 : (env.recv_script 0).accepted = true
    · simp [h0]
    · simp [h0, hz, h]

/-- C1: a script whose third handshake read is the acceptance line, after
two reads that fail with `EAGAIN`; `socket`, `connect` and `send` succeed.
`Run` makes the third read, leaves the loop by `break` with `timeout` equal
to 0, and then returns false by the test `timeout <= 0`: the descriptor is not
stored and `service_is_running_` stays false. -/
theorem Run_third_read_accepted_returns_false :
    (scriptOf [.error EAGAIN, .error EAGAIN, .bytes kAcceptLine] 2).accepted = true ∧
    (scriptOf [.error EAGAIN, .error EAGAIN, .bytes kAcceptLine] 0).isZeroRead = false ∧
    (scriptOf [.error EAGAIN, .error EAGAIN, .bytes kAcceptLine] 1).isZeroRead = false ∧
    (NtripServer.Run exampleEncode exampleAgent
      (exampleEnv [.error EAGAIN, .error EAGAIN, .bytes kAcceptLine])
      exampleServer).1 = false ∧
    (NtripServer.Run exampleEncode exampleAgent
      (exampleEnv [.error EAGAIN, .error EAGAIN, .bytes kAcceptLine])
      exampleServer).2.1 = exampleServer ∧
    ((NtripServer.Run exampleEncode exampleAgent
      (exampleEnv [.error EAGAIN, .error EAGAIN, .bytes kAcceptLine])
      exampleServer).2.2.filter Event.isRecv).length = 3 := by
  decide

/-- C2: a script in which all three handshake reads fail with `EAGAIN`;
`socket` returns descriptor 5, `connect` and `send` succeed. `Run` returns
false at line 127 and its calls contain no `close` at all, while the failure
paths before it close the descriptor. -/
theorem Run_budget_exhausted_does_not_close :
    (NtripServer.Run exampleEncode exampleAgent
      (exampleEnv [.error EAGAIN, .error EAGAIN, .error EAGAIN])
      exampleServer).1 = false ∧
    Event.socket ∈ (NtripServer.Run exampleEncode exampleAgent
      (exampleEnv [.error EAGAIN, .error EAGAIN, .error EAGAIN])
      exampleServer).2.2 ∧
    (NtripServer.Run exampleEncode exampleAgent
      (exampleEnv [.error EAGAIN, .error EAGAIN, .error EAGAIN])
      exampleServer).2.2.filter Event.isClose = [] := by
  decide

/-- The failure paths of `Run` that precede line 127 (failed `connect`, failed
`send`, a zero-byte read that ends the wait) return false and close the
descriptor obtained from `socket` exactly once. -/
theorem Run_early_failure_closes_once (b64 : List Char → List Char)
    (agent : List Char) (env : SysEnv) (s : NtripServer)
    (hsock : env.socket_ret ≠ -1)
    (h : env.connect_ret < 0 ∨ env.send_ret < 0 ∨
      (env.recv_script 0).isZeroRead = true ∨
      ((env.recv_script 0).accepted = false ∧ (env.recv_script 1).isZeroRead = true) ∨
      ((env.recv_script 0).accepted = false ∧ (env.recv_script 0).isZeroRead = false ∧
        (env.recv_script 1).accepted = false ∧ (env.recv_script 2).isZeroRead = true)) :
    (NtripServer.Run b64 agent env s).1 = false ∧
    (NtripServer.Run b64 agent env s).2.2.filter Event.isClose =
      [.close env.socket_ret] := by
  unfold NtripServer.Run
  simp only [beq_iff_eq, hsock, if_false]
  by_cases hconn : env.connect_ret < 0
  · simp [hconn, Event.isClose]
  by_cases hsend : env.send_ret < 0
  · simp [hconn, hsend, Event.isClose]
  simp only [hconn, hsend, if_false, Run_wait_three]
  have na : ∀ r : RecvResult, r.isZeroRead = true → r.accepted = false := by
    intro r hr
    cases hacc : r.accepted
    · rfl
    · rw [not_isZeroRead_of_accepted hacc] at hr
      exact absurd hr (by decide)
  rcases h with h | h | h | ⟨h0, h⟩ | ⟨h0, hz0, h1, h⟩
  · exact absurd h hconn
  · exact absurd h hsend
  · simp [h, na _ h, Event.isClose]
  · by_cases hz0 : (env.recv_script 0).isZeroRead = true
    · simp [h0, hz0, Event.isClose]
    · simp [h0, hz0, h, na _ h, Event.isClose]
  · by_cases hz1 : (env.recv_script 1).isZeroRead = true
    · simp [h0, hz0, h1, hz1, Event.isClose]
    · simp [h0, hz0, h1, hz1, h, na _ h, Event.isClose]

/-- C3: a user name and a password of 23 bytes each, encoded with base64.
The text "username:password" has 47 bytes and reaches `Base64Encode` whole;
its encoding has 64 characters, none of them NUL, and the request of the
specification has fewer than 1023 bytes. The 64 characters and their
terminator do not fit `char userinfo[64]`, so the payload `Run` sends carries
whatever is found in memory at `userinfo` in place of the encoded credential,
and is not always the request of the specification. -/
theorem Run_long_credential_overruns_userinfo :
    userinfo_raw exampleLongServer.user_ exampleLongServer.passwd_ =
      exampleLongServer.user_ ++ ":".toList ++ exampleLongServer.passwd_ ∧
    (exampleBase64
      (userinfo_raw exampleLongServer.user_ exampleLongServer.passwd_)).length = 64 ∧
    (∀ c ∈ exampleBase64
      (userinfo_raw exampleLongServer.user_ exampleLongServer.passwd_), c ≠ NUL) ∧
    (spec_handshake exampleLongServer.mountpoint_ exampleLongServer.server_ip_
      exampleLongServer.server_port_ exampleAgent
      (exampleBase64 (userinfo_raw exampleLongServer.user_ exampleLongServer.passwd_))
      exampleLongServer.ntrip_str_).length ≤ 1023 ∧
    (∀ reads overrun, sentPayloads (NtripServer.Run exampleBase64 exampleAgent
        { exampleEnv reads with userinfo_overrun := overrun } exampleLongServer).2.2 =
      [c_str (snprintf 1024 (request_format exampleLongServer.mountpoint_
        exampleLongServer.server_ip_ exampleLongServer.server_port_ exampleAgent
        overrun exampleLongServer.ntrip_str_))]) ∧
    sentPayloads (NtripServer.Run exampleBase64 exampleAgent
        (exampleEnv [.bytes kAcceptLine]) exampleLongServer).2.2 ≠
      [spec_handshake exampleLongServer.mountpoint_ exampleLongServer.server_ip_
        exampleLongServer.server_port_ exampleAgent
        (exampleBase64
          (userinfo_raw exampleLongServer.user_ exampleLongServer.passwd_))
        exampleLongServer.ntrip_str_] := by
  refine ⟨by decide, by decide, by decide, by decide, ?_, by decide⟩
  intro reads overrun
  rw [Run_sent exampleBase64 exampleAgent _ exampleLongServer
      (show (5 : Int) ≠ -1 by decide) (show (0 : Int) ≤ 0 by decide),
    userinfo_buffer_overrun (by decide)]

/-- The encoder of the examples agrees with base64 on "user:pass". -/
theorem exampleBase64_user_pass :
    exampleBase64 "user:pass".toList = exampleEncode [] := by
  decide

/-- When the encoded credential has at most 63 bytes (so that it fits
`userinfo` with its terminator), the formatted request has at most 1023 bytes
and none of its variable parts contains a NUL byte, the one payload `Run`
passes to `send` is the request of the specification: the eight lines in
order, each followed by CRLF, and nothing after them. -/
theorem Run_sends_spec_handshake (Base64Encode : List Char → List Char)
    (kServerAgent : List Char) (env : SysEnv) (s : NtripServer)
    (hm : ∀ c ∈ s.mountpoint_, c ≠ NUL) (hh : ∀ c ∈ s.server_ip_, c ≠ NUL)
    (ha : ∀ c ∈ kServerAgent, c ≠ NUL)
    (hc : ∀ c ∈ Base64Encode (userinfo_raw s.user_ s.passwd_), c ≠ NUL)
    (hfit : (Base64Encode (userinfo_raw s.user_ s.passwd_)).length < 64)
    (hs : ∀ c ∈ s.ntrip_str_, c ≠ NUL)
    (hlen : (spec_handshake s.mountpoint_ s.server_ip_ s.server_port_ kServerAgent
      (Base64Encode (userinfo_raw s.user_ s.passwd_)) s.ntrip_str_).length ≤ 1023)
    (hsock : env.socket_ret ≠ -1) (hconn : 0 ≤ env.connect_ret) :
    sentPayloads (NtripServer.Run Base64Encode kServerAgent env s).2.2 =
      [spec_handshake s.mountpoint_ s.server_ip_ s.server_port_ kServerAgent
        (Base64Encode (userinfo_raw s.user_ s.passwd_)) s.ntrip_str_] := by
  rw [Run_sent Base64Encode kServerAgent env s hsock hconn,
    request_format_congr _ _ _ _ _ _ _ (c_str_userinfo_buffer hc hfit env.userinfo_overrun),
    request_format_eq_spec _ _ _ _ _ _ hm hh ha hc hs,
    c_str_snprintf (spec_handshake_no_NUL _ _ _ _ _ _ hm hh ha hc hs)]
  rw [List.take_of_length_le (by simpa using hlen)]

/-- The example object, with the acceptance line as first read. -/
theorem Run_sends_spec_handshake_witness :
    sentPayloads (NtripServer.Run exampleEncode exampleAgent
      (exampleEnv [.bytes kAcceptLine]) exampleServer).2.2 =
      [spec_handshake "MNT".toList "127.0.0.1".toList 2101 exampleAgent
        "dXNlcjpwYXNz".toList "STR;MNT;RTCM 3.2".toList] :=
  Run_sends_spec_handshake exampleEncode exampleAgent
    (exampleEnv [.bytes kAcceptLine]) exampleServer
    (by decide) (by decide) (by decide) (by decide) (by decide) (by decide)
    (by decide) (by decide) (by decide)

/-- C4 as stated fails: a user name of 24 bytes and a password of 23 bytes
give a combined string of exactly 48 bytes, and the text handed to
`Base64Encode` is only its first 47 bytes. -/
theorem userinfo_raw_truncates_at_48 :
    ("aaaaaaaaaaaaaaaaaaaaaaaa".toList ++ ":".toList ++
      "bbbbbbbbbbbbbbbbbbbbbbb".toList).length = 48 ∧
    userinfo_raw "aaaaaaaaaaaaaaaaaaaaaaaa".toList "bbbbbbbbbbbbbbbbbbbbbbb".toList =
      "aaaaaaaaaaaaaaaaaaaaaaaa:bbbbbbbbbbbbbbbbbbbbbb".toList ∧
    userinfo_raw "aaaaaaaaaaaaaaaaaaaaaaaa".toList "bbbbbbbbbbbbbbbbbbbbbbb".toList ≠
      "aaaaaaaaaaaaaaaaaaaaaaaa".toList ++ ":".toList ++
        "bbbbbbbbbbbbbbbbbbbbbbb".toList := by
  decide

/-- C4, amended: for a user name and a password without NUL bytes, the text
handed to `Base64Encode` is the whole string "username:password" when that
string has at most 47 bytes, and its first 47 bytes (a proper part of it)
when it is longer. -/
theorem userinfo_raw_untruncated_up_to_47 (user passwd : List Char)
    (hu : ∀ c ∈ user, c ≠ NUL) (hp : ∀ c ∈ passwd, c ≠ NUL) :
    ((user ++ ":".toList ++ passwd).length ≤ 47 →
      userinfo_raw user passwd = user ++ ":".toList ++ passwd) ∧
    (47 < (user ++ ":".toList ++ passwd).length →
      userinfo_raw user passwd = (user ++ ":".toList ++ passwd).take 47 ∧
      userinfo_raw user passwd ≠ user ++ ":".toList ++ passwd) := by
  have hcolon : ∀ c ∈ ":".toList, c ≠ NUL := by decide
  have hall : ∀ c ∈ user ++ ":".toList ++ passwd, c ≠ NUL := by
    intro c hc
    simp only [List.mem_append] at hc
    rcases hc with (h | h) | h
    · exact hu c h
    · exact hcolon c h
    · exact hp c h
  have hraw : userinfo_raw user passwd = (user ++ ":".toList ++ passwd).take 47 := by
    unfold userinfo_raw
    rw [c_str_eq_self hu, c_str_eq_self hp, c_str_snprintf hall]
  constructor
  · intro hlen
    rw [hraw, List.take_of_length_le hlen]
  · intro hlen
    refine ⟨hraw, ?_⟩
    intro heq
    have h1 : (userinfo_raw user passwd).length = 47 := by
      rw [hraw, List.length_take]
      omega
    rw [heq] at h1
    omega

/-- Witness of C4 (amended): a combined string of 9 bytes. -/
theorem userinfo_raw_untruncated_up_to_47_witness :
    userinfo_raw "user".toList "pass".toList = "user".toList ++ ":".toList ++ "pass".toList :=
  (userinfo_raw_untruncated_up_to_47 "user".toList "pass".toList
    (by decide) (by decide)).1 (by decide)

/-- C5 as stated fails: the first read returns 12 bytes that are not the
acceptance line, the second read returns the acceptance line, and `Run`
returns true. -/
theorem Run_accepts_after_rejected_first_read :
    (scriptOf [.bytes "HTTP/1.1 401".toList, .bytes kAcceptLine] 0).isPositive = true ∧
    (scriptOf [.bytes "HTTP/1.1 401".toList, .bytes kAcceptLine] 0).accepted = false ∧
    (NtripServer.Run exampleEncode exampleAgent
      (exampleEnv [.bytes "HTTP/1.1 401".toList, .bytes kAcceptLine])
      exampleServer).1 = true := by
  decide

/-- C5, amended: if none of the first three handshake reads begins with the
acceptance line, `Run` returns false; a non-empty first read that does not
begin with it does not decide the handshake, for when the second read begins
with the acceptance line (and `socket`, `connect`, `send` succeed) `Run`
returns true. -/
theorem Run_acceptance_by_any_read_in_budget (Base64Encode : List Char → List Char)
    (kServerAgent : List Char) (env : SysEnv) (s : NtripServer) :
    ((∀ i, i < 3 → (env.recv_script i).accepted = false) →
      (NtripServer.Run Base64Encode kServerAgent env s).1 = false) ∧
    (env.socket_ret ≠ -1 → 0 ≤ env.connect_ret → 0 ≤ env.send_ret →
      (env.recv_script 0).isPositive = true →
      (env.recv_script 0).accepted = false →
      (env.recv_script 1).accepted = true →
      (NtripServer.Run Base64Encode kServerAgent env s).1 = true) := by
  constructor
  · intro h
    have h0 := h 0 (by decide)
    have h1 := h 1 (by decide)
    have h2 := h 2 (by decide)
    unfold NtripServer.Run
    simp only [Run_wait_three, h0, h1, h2]
    split_ifs <;> first | contradiction | simp
  · intro hsock hconn hsend hpos _ hacc
    exact (Run_true_of_accept_within_two Base64Encode kServerAgent env s hsock hconn
      hsend (Or.inr ⟨not_isZeroRead_of_isPositive hpos, hacc⟩)).1

/-- Witness of C5 (amended): no accepted read in one script, a rejected first
read followed by the acceptance line in the other. -/
theorem Run_acceptance_by_any_read_in_budget_witness :
    (NtripServer.Run exampleEncode exampleAgent
      (exampleEnv [.bytes "HTTP/1.1 401".toList, .error EAGAIN, .bytes "ICY".toList])
      exampleServer).1 = false ∧
    (NtripServer.Run exampleEncode exampleAgent
      (exampleEnv [.bytes "HTTP/1.1 401".toList, .bytes kAcceptLine])
      exampleServer).1 = true :=
  ⟨(Run_acceptance_by_any_read_in_budget exampleEncode exampleAgent
      (exampleEnv [.bytes "HTTP/1.1 401".toList, .error EAGAIN, .bytes "ICY".toList])
      exampleServer).1 (by decide),
   (Run_acceptance_by_any_read_in_budget exampleEncode exampleAgent
      (exampleEnv [.bytes "HTTP/1.1 401".toList, .bytes kAcceptLine])
      exampleServer).2 (by decide) (by decide) (by decide) (by decide) (by decide)
      (by decide)⟩

/-- C6: when `socket`, `connect` and `send` succeed and each of the three
handshake reads returns a negative result, `Run` makes exactly the calls
listed (three reads, each followed by a sleep of one second, and then neither
`setsockopt` nor the start of the thread), returns false, and leaves the
object, `socket_fd_` and `service_is_running_` included, as it was. -/
theorem Run_no_reply (Base64Encode : List Char → List Char)
    (kServerAgent : List Char) (env : SysEnv) (s : NtripServer)
    (hsock : env.socket_ret ≠ -1) (hconn : 0 ≤ env.connect_ret)
    (hsend : 0 ≤ env.send_ret)
    (hneg : ∀ i, i < 3 → (env.recv_script i).isNegative = true) :
    NtripServer.Run Base64Encode kServerAgent env s =
      (false, s,
       [.socket, .connect env.socket_ret s.server_ip_ s.server_port_,
        .set_nonblocking env.socket_ret,
        .send env.socket_ret (c_str (snprintf 1024
          (request_format s.mountpoint_ s.server_ip_ s.server_port_ kServerAgent
            (userinfo_buffer (Base64Encode (userinfo_raw s.user_ s.passwd_))
              env.userinfo_overrun) s.ntrip_str_))),
        .recv env.socket_ret, .sleep 1,
        .recv env.socket_ret, .sleep 1,
        .recv env.socket_ret, .sleep 1]) := by
  have h0 := hneg 0 (by decide)
  have h1 := hneg 1 (by decide)
  have h2 := hneg 2 (by decide)
  unfold NtripServer.Run
  simp [hsock, not_lt.mpr hconn, not_lt.mpr hsend, Run_wait_three,
    not_accepted_of_isNegative h0, not_accepted_of_isNegative h1,
    not_accepted_of_isNegative h2, not_isZeroRead_of_isNegative h0,
    not_isZeroRead_of_isNegative h1, not_isZeroRead_of_isNegative h2]

/-- Witness of C6: three reads that fail with `EAGAIN`. -/
theorem Run_no_reply_witness :
    NtripServer.Run exampleEncode exampleAgent
      (exampleEnv [.error EAGAIN, .error EAGAIN, .error EAGAIN]) exampleServer =
      (false, exampleServer,
       [.socket, .connect 5 "127.0.0.1".toList 2101, .set_nonblocking 5,
        .send 5 (spec_handshake "MNT".toList "127.0.0.1".toList 2101 exampleAgent
          "dXNlcjpwYXNz".toList "STR;MNT;RTCM 3.2".toList),
        .recv 5, .sleep 1, .recv 5, .sleep 1, .recv 5, .sleep 1]) :=
  (Run_no_reply exampleEncode exampleAgent
    (exampleEnv [.error EAGAIN, .error EAGAIN, .error EAGAIN]) exampleServer
    (by decide) (by decide) (by decide) (by decide)).trans (by decide)

/-! ## The monitor loop -/

theorem fatal_error_cond_eq (r : RecvResult) :
    (decide (r.ret 1024 < 0) && (r.errno_after != EAGAIN &&
      r.errno_after != EWOULDBLOCK && r.errno_after != EINTR)) = r.isFatalError := by
  cases r with
  | bytes d =>
    have : ¬ ((((d.take 1024).length : Nat) : Int) < 0) := by omega
    simp [RecvResult.ret, RecvResult.isFatalError, this]
  | error e => simp [RecvResult.ret, RecvResult.isFatalError, RecvResult.errno_after]

theorem TheradHandler_loop_succ (rs : Nat → RecvResult) (s : NtripServer)
    (hrun : s.thread_is_running_ = true) (fuel i : Nat) :
    TheradHandler_loop rs s (fuel + 1) i =
      if (rs i).isZeroRead then
        some [.recv s.socket_fd_, .printf "Remote socket close!!!\n"]
      else if (rs i).isFatalError then
        some [.recv s.socket_fd_, .printf "Remote socket error!!!\n"]
      else (TheradHandler_loop rs s fuel (i + 1)).map
        (fun rest => .recv s.socket_fd_ :: .sleep_for_ms 10 :: rest) := by
  simp only [TheradHandler_loop, hrun, if_true, zero_cond_eq, fatal_error_cond_eq]

theorem TheradHandler_loop_running (rs : Nat → RecvResult) (s : NtripServer)
    (hrun : s.thread_is_running_ = true) :
    ∀ k i, (∀ j, j < k → (rs (i + j)).isFatal = false) →
      TheradHandler_loop rs s k i = none := by
  intro k
  induction k with
  | zero => intro i _; rfl
  | succ k ih =>
    intro i h
    have h0 := h 0 (Nat.succ_pos k)
    simp only [RecvResult.isFatal, Bool.or_eq_false_iff, Nat.add_zero] at h0
    rw [TheradHandler_loop_succ rs s hrun, ih (i + 1)]
    · simp [h0.1, h0.2]
    · intro j hj
      have := h (j + 1) (by omega)
      rwa [show i + (j + 1) = i + 1 + j by omega] at this

theorem TheradHandler_loop_exit (rs : Nat → RecvResult) (s : NtripServer)
    (hrun : s.thread_is_running_ = true) :
    ∀ k i fuel, (∀ j, j < k → (rs (i + j)).isFatal = false) →
      (rs (i + k)).isFatal = true → k < fuel →
      ∃ tr, TheradHandler_loop rs s fuel i = some tr ∧
        (tr.filter Event.isRecv).length = k + 1 ∧
        tr.filter Event.isClose = [] ∧ sentPayloads tr = [] := by
  intro k
  induction k with
  | zero =>
    intro i fuel _ hk hfuel
    obtain ⟨fuel, rfl⟩ : ∃ f, fuel = f + 1 := ⟨fuel - 1, by omega⟩
    rw [TheradHandler_loop_succ rs s hrun]
    simp only [RecvResult.isFatal, Bool.or_eq_true, Nat.add_zero] at hk
    by_cases hz : (rs i).isZeroRead = true
    · exact ⟨[.recv s.socket_fd_, .printf "Remote socket close!!!\n"],
        by simp only [hz, if_true], rfl, rfl, rfl⟩
    · have hf : (rs i).isFatalError = true := hk.resolve_left hz
      exact ⟨[.recv s.socket_fd_, .printf "Remote socket error!!!\n"],
        by simp [hz, hf], rfl, rfl, rfl⟩
  | succ k ih =>
    intro i fuel h hk hfuel
    obtain ⟨fuel, rfl⟩ : ∃ f, fuel = f + 1 := ⟨fuel - 1, by omega⟩
    have h0 := h 0 (Nat.succ_pos k)
    simp only [RecvResult.isFatal, Bool.or_eq_false_iff, Nat.add_zero] at h0
    obtain ⟨tr, htr, hrecv, hclose, hsent⟩ := ih (i + 1) fuel
      (by
        intro j hj
        have := h (j + 1) (by omega)
        rwa [show i + (j + 1) = i + 1 + j by omega] at this)
      (by rwa [show i + (k + 1) = i + 1 + k by omega] at hk)
      (by omega)
    refine ⟨.recv s.socket_fd_ :: .sleep_for_ms 10 :: tr, ?_, ?_, ?_, ?_⟩
    · rw [TheradHandler_loop_succ rs s hrun, htr]
      simp [h0.1, h0.2]
    · simp [List.filter_cons, Event.isRecv, hrecv]
    · simp [List.filter_cons, Event.isClose, hclose]
    · simp [sentPayloads, hsent]

theorem TheradHandler_exit (rs : Nat → RecvResult) (s : NtripServer) (k fuel : Nat)
    (hbefore : ∀ j, j < k → (rs j).isFatal = false)
    (hk : (rs k).isFatal = true) (hfuel : k < fuel) :
    ∃ tr, NtripServer.TheradHandler rs fuel s =
        some ({ s with thread_is_running_ := false, service_is_running_ := false,
                       socket_fd_ := -1 }, tr) ∧
      (tr.filter Event.isRecv).length = k + 1 ∧
      tr.filter Event.isClose = [.close s.socket_fd_] ∧
      tr.getLast? = some (.close s.socket_fd_) ∧
      sentPayloads tr = [] := by
  obtain ⟨tr, htr, hrecv, hclose, hsent⟩ :=
    TheradHandler_loop_exit rs { s with thread_is_running_ := true } rfl k 0 fuel
      (by simpa using hbefore) (by simpa using hk) hfuel
  refine ⟨tr ++ [.close s.socket_fd_], ?_, ?_, ?_, ?_, ?_⟩
  · simp [NtripServer.TheradHandler, htr]
  · simp [List.filter_append, hrecv, Event.isRecv]
  · simp [List.filter_append, hclose, Event.isClose]
  · simp
  · simp [sentPayloads_append, hsent, sentPayloads]

/-- C7: if result number `k` of the script is the first that is a zero-byte
read or a failure whose error number is none of `EAGAIN`, `EWOULDBLOCK`,
`EINTR`, then `TheradHandler` is still in its loop after `k` iterations and,
given more than `k` iterations, returns after exactly `k + 1` reads; its one
`close` is of the descriptor and is its last call, and it leaves `socket_fd_`
equal to -1 and both flags false. -/
theorem TheradHandler_exits_at_first_fatal (recv_script : Nat → RecvResult)
    (s : NtripServer) (k fuel : Nat)
    (hbefore : ∀ j, j < k → (recv_script j).isFatal = false)
    (hk : (recv_script k).isFatal = true) (hfuel : k < fuel) :
    NtripServer.TheradHandler recv_script k s = none ∧
    ∃ tr, NtripServer.TheradHandler recv_script fuel s =
        some ({ s with thread_is_running_ := false, service_is_running_ := false,
                       socket_fd_ := -1 }, tr) ∧
      (tr.filter Event.isRecv).length = k + 1 ∧
      tr.filter Event.isClose = [.close s.socket_fd_] ∧
      tr.getLast? = some (.close s.socket_fd_) := by
  constructor
  · have := TheradHandler_loop_running recv_script { s with thread_is_running_ := true }
      rfl k 0 (by simpa using hbefore)
    simp [NtripServer.TheradHandler, this]
  · obtain ⟨tr, h1, h2, h3, h4, _⟩ := TheradHandler_exit recv_script s k fuel hbefore hk hfuel
    exact ⟨tr, h1, h2, h3, h4⟩

/-- Witness of C7: data, then `EAGAIN`, then `EINTR`, then a zero-byte
read. -/
theorem TheradHandler_exits_at_first_fatal_witness :
    NtripServer.TheradHandler
      (scriptOf [.bytes "x".toList, .error EAGAIN, .error EINTR, .bytes []]) 3
      exampleMonitored = none ∧
    ∃ tr, NtripServer.TheradHandler
        (scriptOf [.bytes "x".toList, .error EAGAIN, .error EINTR, .bytes []]) 9
        exampleMonitored =
        some ({ exampleMonitored with
          thread_is_running_ := false, service_is_running_ := false,
          socket_fd_ := -1 }, tr) ∧
      (tr.filter Event.isRecv).length = 3 + 1 ∧
      tr.filter Event.isClose = [.close exampleMonitored.socket_fd_] ∧
      tr.getLast? = some (.close exampleMonitored.socket_fd_) :=
  TheradHandler_exits_at_first_fatal
    (scriptOf [.bytes "x".toList, .error EAGAIN, .error EINTR, .bytes []])
    exampleMonitored 3 9 (by decide) (by decide) (by decide)

/-- C8 as stated fails: with the buffers A, B, C queued and a connection that
stays alive for two reads, `TheradHandler` runs to its exit without a single
`send`, and the three buffers are still in `data_list_`. -/
theorem TheradHandler_leaves_queue_unsent :
    (NtripServer.TheradHandler
      (scriptOf [.error EAGAIN, .bytes "x".toList, .bytes []]) 9 exampleQueued).map
      (fun r => (sentPayloads r.2, r.1.data_list_)) =
      some ([], ["A".toList, "B".toList, "C".toList]) ∧
    ([] : List (List Char)) ≠ ["A".toList, "B".toList, "C".toList] := by
  decide

/-- C8, amended: whatever `data_list_` holds, a run of `TheradHandler` up to
its exit (at the first fatal read result) passes nothing to `send` and leaves
`data_list_` exactly as it was. -/
theorem TheradHandler_never_drains_queue (recv_script : Nat → RecvResult)
    (s : NtripServer) (k fuel : Nat)
    (hbefore : ∀ j, j < k → (recv_script j).isFatal = false)
    (hk : (recv_script k).isFatal = true) (hfuel : k < fuel) :
    ∃ s1 tr, NtripServer.TheradHandler recv_script fuel s = some (s1, tr) ∧
      sentPayloads tr = [] ∧ s1.data_list_ = s.data_list_ := by
  obtain ⟨tr, h1, _, _, _, h5⟩ := TheradHandler_exit recv_script s k fuel hbefore hk hfuel
  exact ⟨_, tr, h1, h5, rfl⟩

/-- Witness of C8 (amended): the queue A, B, C and a peer that closes at the
third read. -/
theorem TheradHandler_never_drains_queue_witness :
    ∃ s1 tr, NtripServer.TheradHandler
        (scriptOf [.error EAGAIN, .bytes "x".toList, .bytes []]) 9 exampleQueued =
        some (s1, tr) ∧
      sentPayloads tr = [] ∧ s1.data_list_ = exampleQueued.data_list_ :=
  TheradHandler_never_drains_queue
    (scriptOf [.error EAGAIN, .bytes "x".toList, .bytes []]) exampleQueued 2 9
    (by decide) (by decide) (by decide)

/-! ## `Stop` and the destructor -/

theorem Stop_eq (s : NtripServer) :
    s.Stop = ({ s with thread_is_running_ := false, service_is_running_ := false,
                       socket_fd_ := -1, data_list_ := [] },
              if s.socket_fd_ = -1 then [] else [.close s.socket_fd_]) := by
  obtain ⟨t, sv, fd, dl, ip, port, u, p, m, n⟩ := s
  by_cases hfd : fd = -1 <;> cases dl <;> simp [NtripServer.Stop, hfd]

/-- C9: `Stop` on any object leaves both flags false, `socket_fd_` equal to
-1 and `data_list_` empty, closing the descriptor once if there was one; a
second `Stop`, or the destructor, applied to the result changes nothing and
makes no call, so that either sequence closes at most once. -/
theorem Stop_idempotent (s : NtripServer) :
    s.Stop.1.thread_is_running_ = false ∧ s.Stop.1.service_is_running_ = false ∧
    s.Stop.1.socket_fd_ = -1 ∧ s.Stop.1.data_list_ = [] ∧
    s.Stop.2 = (if s.socket_fd_ = -1 then [] else [.close s.socket_fd_]) ∧
    s.Stop.1.Stop = (s.Stop.1, []) ∧
    s.Stop.1.Destructor = (s.Stop.1, []) ∧
    ((s.Stop.2 ++ s.Stop.1.Stop.2).filter Event.isClose).length ≤ 1 ∧
    ((s.Stop.2 ++ s.Stop.1.Destructor.2).filter Event.isClose).length ≤ 1 := by
  have h2 : s.Stop.1.Stop = (s.Stop.1, []) := by
    rw [Stop_eq s.Stop.1, Stop_eq s]
    simp
  have h3 : s.Stop.1.Destructor = (s.Stop.1, []) := by
    unfold NtripServer.Destructor
    rw [Stop_eq s]
    simp
  refine ⟨?_, ?_, ?_, ?_, ?_, h2, h3, ?_, ?_⟩
  · rw [Stop_eq]
  · rw [Stop_eq]
  · rw [Stop_eq]
  · rw [Stop_eq]
  · rw [Stop_eq]
  · rw [h2, Stop_eq]
    by_cases hfd : s.socket_fd_ = -1 <;> simp [hfd, Event.isClose]
  · rw [h3, Stop_eq]
    by_cases hfd : s.socket_fd_ = -1 <;> simp [hfd, Event.isClose]

/-- C10 as stated fails: on the object that a successful `Run` returns,
`service_is_running_` is true and `thread_is_running_` is still false; the
destructor then makes no call and changes nothing, whereas `Stop` closes
descriptor 5. -/
theorem Destructor_skips_started_object :
    (NtripServer.Run exampleEncode exampleAgent (exampleEnv [.bytes kAcceptLine])
      exampleServer).1 = true ∧
    exampleStarted.service_is_running_ = true ∧
    exampleStarted.Destructor = (exampleStarted, []) ∧
    exampleStarted.Stop.2 = [.close 5] ∧
    exampleStarted.Destructor ≠ exampleStarted.Stop := by
  decide

/-- C10, amended: on every object whose `thread_is_running_` is true the
destructor has the effect of `Stop`: both flags become false, `socket_fd_`
becomes -1, `data_list_` is emptied, and a descriptor other than -1 is closed
once. -/
theorem Destructor_eq_Stop_of_thread_running (s : NtripServer)
    (h : s.thread_is_running_ = true) :
    s.Destructor = s.Stop ∧
    s.Destructor.1.thread_is_running_ = false ∧
    s.Destructor.1.service_is_running_ = false ∧
    s.Destructor.1.socket_fd_ = -1 ∧ s.Destructor.1.data_list_ = [] ∧
    (s.socket_fd_ ≠ -1 → s.Destructor.2 = [.close s.socket_fd_]) := by
  have hd : s.Destructor = s.Stop := by
    unfold NtripServer.Destructor
    rw [if_pos h]
  rw [hd, Stop_eq]
  refine ⟨rfl, rfl, rfl, rfl, rfl, ?_⟩
  intro hfd
  simp [hfd]

/-- Witness of C10 (amended): the started object after the thread has set
its flag. -/
theorem Destructor_eq_Stop_of_thread_running_witness :
    exampleMonitored.Destructor = exampleMonitored.Stop ∧
    exampleMonitored.Destructor.1.thread_is_running_ = false ∧
    exampleMonitored.Destructor.1.service_is_running_ = false ∧
    exampleMonitored.Destructor.1.socket_fd_ = -1 ∧
    exampleMonitored.Destructor.1.data_list_ = [] ∧
    (exampleMonitored.socket_fd_ ≠ -1 →
      exampleMonitored.Destructor.2 = [.close exampleMonitored.socket_fd_]) :=
  Destructor_eq_Stop_of_thread_running exampleMonitored (by decide)

end libntrip
